import Mathlib

/-!
Shallow embedding of the turn-execution core of the calculator/greeting agent
(`src/app/agent.py`): the tool functions `calculator` and `get_greeting`, the
progress-streaming logic of `CalculatorGreetingAgent.stream`, and the terminal
classification `CalculatorGreetingAgent.get_agent_response`.

Python floats are idealised as rationals (`ℚ`), and Python's `str(<number>)`
rendering is abstracted as a parameter `numStr : ℚ → String`; the error strings
the code returns are independent of that rendering.  Python's `str.lower` is
modelled character-wise, and `in`-substring tests are modelled by an executable
substring scan over the character list of the string.
-/

namespace AgentSpec

/-- A model-issued tool call: langchain's `ToolCall` dict carries a tool name
and an argument mapping (`src/app/agent.py` reads `tool_calls[0].get("name", "tool")`;
langchain guarantees the `name` key is present). -/
structure ToolCall where
  name : String
  args : List (String × String)
deriving DecidableEq

/-- The `content` field of a langchain message: either a plain string or a
list of content blocks (`get_agent_response` checks `isinstance(content, str)`). -/
inductive MsgContent
  | str (s : String)
  | blocks (l : List String)
deriving DecidableEq

/-- The message variants the core distinguishes: user input, an `AIMessage`
(content plus a possibly empty list of tool calls) and a `ToolMessage`
carrying a tool result. -/
inductive Message
  | user (content : MsgContent)
  | ai (content : MsgContent) (tool_calls : List ToolCall)
  | toolMsg (content : MsgContent)
deriving DecidableEq

/-- The event records yielded by `stream` and returned by
`get_agent_response`: `{is_task_complete, require_user_input, content}`. -/
structure ProgressEvent where
  is_task_complete : Bool
  require_user_input : Bool
  content : String
deriving DecidableEq

/-- Python truthiness of a message `content` value, as used by
`if isinstance(last_message, AIMessage) and last_message.content:`:
a string is truthy iff non-empty, a block list iff non-empty. -/
def contentTruthy : MsgContent → Bool
  | MsgContent.str s => s != ""
  | MsgContent.blocks l => !l.isEmpty

/-- Character-wise lowercasing, the model of Python's `content.lower()`
(the phrase set being scanned for is plain ASCII). -/
def strLower (s : String) : String := ⟨s.data.map Char.toLower⟩

/-- `subAt l pat`: `pat` occurs at the very start of `l`. -/
def subAt : List Char → List Char → Bool
  | _, [] => true
  | [], _ :: _ => false
  | c :: cs, p :: ps => c == p && subAt cs ps

/-- `hasSub l pat`: `pat` occurs contiguously somewhere in `l`. -/
def hasSub : List Char → List Char → Bool
  | [], pat => pat.isEmpty
  | c :: cs, pat => subAt (c :: cs) pat || hasSub cs pat

/-- The model of Python's `pat in s` substring test. -/
def containsSubstr (s pat : String) : Bool := hasSub s.data pat.data

/-- The fixed phrase set scanned for in `get_agent_response`
(`src/app/agent.py` lines 136-142). -/
def inputKeywords : List String :=
  ["need more", "please provide", "please specify", "which", "clarify"]

/-- The fallback record returned by `get_agent_response` when no usable final
agent message exists (`src/app/agent.py` lines 157-163). -/
def fallbackEvent : ProgressEvent :=
  { is_task_complete := false
    require_user_input := true
    content := "We are unable to process your request at the moment. Please try again." }

/-- `CalculatorGreetingAgent.get_agent_response` (`src/app/agent.py` lines
121-163), as a function of the session's message list: reads the last
message; if it is an `AIMessage` with truthy string content, scans the
lowercased content for the input keywords and returns the input-required or
completed record; every other path returns the fallback record. -/
def get_agent_response (messages : List Message) : ProgressEvent :=
  match messages.getLast? with
  | some (Message.ai content _tool_calls) =>
    if contentTruthy content then
      match content with
      | MsgContent.str s =>
        if inputKeywords.any (fun keyword => containsSubstr (strLower s) keyword) then
          { is_task_complete := false, require_user_input := true, content := s }
        else
          { is_task_complete := true, require_user_input := false, content := s }
      | MsgContent.blocks _ => fallbackEvent
    else fallbackEvent
  | _ => fallbackEvent

/-- The `calculator` tool (`src/app/agent.py` lines 15-38).  Numbers are
idealised as rationals; `numStr` abstracts Python's `str(<number>)`. -/
def calculator (numStr : ℚ → String) (operation : String) (a b : ℚ) : String :=
  if operation = "add" then numStr (a + b)
  else if operation = "subtract" then numStr (a - b)
  else if operation = "multiply" then numStr (a * b)
  else if operation = "divide" then
    if b = 0 then "Error: Division by zero"
    else numStr (a / b)
  else "Error: Unknown operation"

/-- The default value of `get_greeting`'s `name` parameter
(`def get_greeting(name: str = "friend")`). -/
def defaultName : String := "friend"

/-- The `get_greeting` tool (`src/app/agent.py` lines 41-51); a call with no
argument is `get_greeting defaultName`. -/
def get_greeting (name : String) : String :=
  "Hello " ++ name ++ "! Nice to meet you! 👋"

/-- The per-step event logic of `CalculatorGreetingAgent.stream`
(`src/app/agent.py` lines 91-117), as a function of the last message of the
state yielded by a step of `self.graph.stream`: an `AIMessage` with a
non-empty tool-call list yields the calculation or greeting notice according
to the first tool call's name and nothing for any other name; a `ToolMessage`
yields the processing notice; everything else yields nothing. -/
def stepEvent (message : Message) : Option ProgressEvent :=
  match message with
  | Message.ai _ (tc :: _) =>
    if tc.name = "calculator" then
      some { is_task_complete := false, require_user_input := false
             content := "Performing calculation..." }
    else if tc.name = "get_greeting" then
      some { is_task_complete := false, require_user_input := false
             content := "Preparing greeting..." }
    else none
  | Message.toolMsg _ =>
    some { is_task_complete := false, require_user_input := false
           content := "Processing result..." }
  | _ => none

/-- The full event sequence of one `stream` run: `trace` is the list of last
messages of the states yielded by `self.graph.stream`, and `finalMessages`
the message list of `self.graph.get_state(config)` after the loop; the
intermediate events are followed by the single terminal record
(`src/app/agent.py` lines 87-119). -/
def streamEvents (trace : List Message) (finalMessages : List Message) :
    List ProgressEvent :=
  trace.filterMap stepEvent ++ [get_agent_response finalMessages]

/-- Modelled from the spec: one step of the Reasoning Loop (spec 4.1).  The
loop itself is provided by the external `create_react_agent` and has no
source under `src/`.  Per the spec, when the model's message carries tool
calls, only the first is invoked and its raw output appended as a tool-result
message; a message without tool calls is the final answer and ends the loop.
Returns the new history and whether the loop is finished. -/
def loopStep (execTool : ToolCall → String) (history : List Message)
    (msg : Message) : List Message × Bool :=
  match msg with
  | Message.ai _ (tc :: _) =>
    (history ++ [msg, Message.toolMsg (MsgContent.str (execTool tc))], false)
  | _ => (history ++ [msg], true)

/-- Modelled from the spec: the Reasoning Loop (spec 4.1), driven by an
opaque model backend `modelFn` and bounded by fuel (the observed design has
no built-in step limit). -/
def runLoop (modelFn : List Message → Message) (execTool : ToolCall → String) :
    Nat → List Message → List Message
  | 0, history => history
  | Nat.succ fuel, history =>
    let step := loopStep execTool history (modelFn history)
    if step.2 then step.1 else runLoop modelFn execTool fuel step.1

/-- The three statuses declared by the `ResponseFormat` model
(`src/app/agent.py` lines 54-58). -/
inductive TaskStatus
  | completed
  | input_required
  | error
deriving DecidableEq

/-- Modelled from the spec: the `TaskStatus` derived from a terminal record
(spec 3, "Determined solely from the terminal record"); the translation
itself lives in `app/agent_executor.py`, which is not under `src/`. -/
def taskStatusOf (e : ProgressEvent) : TaskStatus :=
  if e.is_task_complete then TaskStatus.completed
  else if e.require_user_input then TaskStatus.input_required
  else TaskStatus.error

end AgentSpec

namespace AgentSpec

theorem subAt_nil (l : List Char) : subAt l [] = true := by
  cases l <;> rfl

theorem subAt_self_append (p l : List Char) : subAt (p ++ l) p = true := by
  induction p with
  | nil => exact subAt_nil l
  | cons c cs ih => simp [subAt, ih]

theorem hasSub_of_subAt (l p : List Char) (h : subAt l p = true) :
    hasSub l p = true := by
  cases l with
  | nil =>
    cases p with
    | nil => rfl
    | cons q qs => simp [subAt] at h
  | cons c cs => simp [hasSub, h]

theorem hasSub_append (l₁ l₂ p : List Char) (h : hasSub l₂ p = true) :
    hasSub (l₁ ++ l₂) p = true := by
  induction l₁ with
  | nil => simpa using h
  | cons c cs ih => simp [hasSub, ih]

theorem get_agent_response_shape (messages : List Message) :
    get_agent_response messages =
      { is_task_complete := true, require_user_input := false
        content := (get_agent_response messages).content } ∨
    get_agent_response messages =
      { is_task_complete := false, require_user_input := true
        content := (get_agent_response messages).content } := by
  unfold get_agent_response
  split
  · split
    · split
      · split
        · right; rfl
        · left; rfl
      · right; rfl
    · right; rfl
  · right; rfl

theorem stepEvent_flags (m : Message) (e : ProgressEvent)
    (h : stepEvent m = some e) :
    e.is_task_complete = false ∧ e.require_user_input = false := by
  unfold stepEvent at h
  split at h
  · split_ifs at h <;> cases h <;> exact ⟨rfl, rfl⟩
  · cases h; exact ⟨rfl, rfl⟩
  · cases h

/-- C2: for `add`, `subtract` and `multiply` the calculator returns the
rendered exact arithmetic result; `divide` by zero returns the literal
division-by-zero error string, `divide` by a non-zero divisor the rendered
quotient, and any other operation string the unknown-operation error string.
Being a total Lean function into `String`, the embedding returns a string on
every input and never raises. -/
theorem calculator_spec (numStr : ℚ → String) (operation : String) (a b : ℚ) :
    calculator numStr "add" a b = numStr (a + b) ∧
    calculator numStr "subtract" a b = numStr (a - b) ∧
    calculator numStr "multiply" a b = numStr (a * b) ∧
    calculator numStr "divide" a 0 = "Error: Division by zero" ∧
    (b ≠ 0 → calculator numStr "divide" a b = numStr (a / b)) ∧
    (operation ≠ "add" → operation ≠ "subtract" → operation ≠ "multiply" →
      operation ≠ "divide" →
      calculator numStr operation a b = "Error: Unknown operation") := by
  refine ⟨?_, ?_, ?_, ?_, ?_, ?_⟩
  · rw [calculator, if_pos rfl]
  · rw [calculator, if_neg (by decide), if_pos rfl]
  · rw [calculator, if_neg (by decide), if_neg (by decide), if_pos rfl]
  · rw [calculator, if_neg (by decide), if_neg (by decide), if_neg (by decide),
      if_pos rfl, if_pos rfl]
  · intro hb
    rw [calculator, if_neg (by decide), if_neg (by decide), if_neg (by decide),
      if_pos rfl, if_neg hb]
  · intro h1 h2 h3 h4
    rw [calculator, if_neg h1, if_neg h2, if_neg h3, if_neg h4]

/-- Witness for C2: the divide-by-two and unknown-operation cases at
concrete inputs. -/
theorem calculator_spec_witness :
    calculator toString "divide" 1 2 = toString ((1 : ℚ) / 2) ∧
    calculator toString "modulo" 1 2 = "Error: Unknown operation" :=
  ⟨((calculator_spec toString "modulo" 1 2).2.2.2.2.1 (by norm_num)),
   ((calculator_spec toString "modulo" 1 2).2.2.2.2.2
     (by decide) (by decide) (by decide) (by decide))⟩

/-- C8: `get_greeting name` contains `name` and the greeting marker
`"Hello"`, and the default argument `"friend"` produces the greeting for
`"friend"`. -/
theorem get_greeting_spec (name : String) :
    containsSubstr (get_greeting name) name = true ∧
    containsSubstr (get_greeting name) "Hello" = true ∧
    get_greeting defaultName = "Hello friend! Nice to meet you! 👋" := by
  refine ⟨?_, ?_, by decide⟩
  · show hasSub (get_greeting name).data name.data = true
    have hdata : (get_greeting name).data =
        "Hello ".data ++ (name.data ++ "! Nice to meet you! 👋".data) := by
      simp [get_greeting, String.data_append]
    rw [hdata]
    exact hasSub_append _ _ _
      (hasSub_of_subAt _ _ (subAt_self_append name.data _))
  · show hasSub (get_greeting name).data "Hello".data = true
    have hdata : (get_greeting name).data =
        "Hello".data ++ (' ' :: (name.data ++ "! Nice to meet you! 👋".data)) := by
      simp [get_greeting, String.data_append]
    rw [hdata]
    exact hasSub_of_subAt _ _ (subAt_self_append "Hello".data _)

/-- C3: a Reasoning Loop step on a model message carrying a batch of tool
calls invokes only the first call of the batch: the step appends exactly one
tool-result message, whose content is the output of the first call, and the
remaining calls `rest` are never executed (the result is this same record
for every `rest`). -/
theorem loopStep_first_tool_only (execTool : ToolCall → String)
    (history : List Message) (c : MsgContent) (tc : ToolCall)
    (rest : List ToolCall) :
    loopStep execTool history (Message.ai c (tc :: rest)) =
      (history ++ [Message.ai c (tc :: rest),
        Message.toolMsg (MsgContent.str (execTool tc))], false) := rfl

/-- C5: the terminal record produced by the Completion Classifier never has
both flags true, and always has exactly one of them true. -/
theorem classify_flags_exclusive (messages : List Message) :
    ((get_agent_response messages).is_task_complete &&
      (get_agent_response messages).require_user_input) = false ∧
    ((get_agent_response messages).is_task_complete ||
      (get_agent_response messages).require_user_input) = true := by
  rcases get_agent_response_shape messages with h | h <;> rw [h] <;>
    exact ⟨rfl, rfl⟩

/-- C9: the classifier only produces the completed-with-answer or
input-required record shapes (the fallback being an instance of the
latter), so the derived `TaskStatus` is always `completed` or
`input_required` and the `error` status declared in `ResponseFormat` is
unreachable from the classifier. -/
theorem classify_no_error_status (messages : List Message) :
    (get_agent_response messages =
        { is_task_complete := true, require_user_input := false
          content := (get_agent_response messages).content } ∨
      get_agent_response messages =
        { is_task_complete := false, require_user_input := true
          content := (get_agent_response messages).content }) ∧
    (taskStatusOf (get_agent_response messages) = TaskStatus.completed ∨
      taskStatusOf (get_agent_response messages) = TaskStatus.input_required) := by
  rcases get_agent_response_shape messages with h | h
  · exact ⟨Or.inl h, Or.inl (by rw [h]; rfl)⟩
  · exact ⟨Or.inr h, Or.inr (by rw [h]; rfl)⟩

/-- C6: a step whose message is an agent message whose first tool call is
named `calculator` yields the calculation notice, one whose first tool call
is named `get_greeting` yields the greeting notice, a tool-result step
yields the processing notice, and every event a step yields has both
completion flags false. -/
theorem stream_step_events :
    (∀ (c : MsgContent) (args : List (String × String)) (rest : List ToolCall),
      stepEvent (Message.ai c (ToolCall.mk "calculator" args :: rest)) =
        some { is_task_complete := false, require_user_input := false
               content := "Performing calculation..." }) ∧
    (∀ (c : MsgContent) (args : List (String × String)) (rest : List ToolCall),
      stepEvent (Message.ai c (ToolCall.mk "get_greeting" args :: rest)) =
        some { is_task_complete := false, require_user_input := false
               content := "Preparing greeting..." }) ∧
    (∀ c : MsgContent, stepEvent (Message.toolMsg c) =
        some { is_task_complete := false, require_user_input := false
               content := "Processing result..." }) ∧
    (∀ m : Message, (stepEvent m).elim True
        (fun e => e.is_task_complete = false ∧ e.require_user_input = false)) := by
  refine ⟨fun c args rest => rfl, fun c args rest => ?_, fun c => rfl, fun m => ?_⟩
  · simp [stepEvent]
  · rcases hm : stepEvent m with _ | e
    · trivial
    · exact stepEvent_flags m e hm

/-- C10: a step whose agent message has a non-empty tool-call batch whose
first call is named neither `calculator` nor `get_greeting` yields no
progress event at all. -/
theorem stream_step_unknown_tool (c : MsgContent) (n : String)
    (args : List (String × String)) (rest : List ToolCall)
    (h1 : n ≠ "calculator") (h2 : n ≠ "get_greeting") :
    stepEvent (Message.ai c (ToolCall.mk n args :: rest)) = none := by
  rw [stepEvent, if_neg h1, if_neg h2]

/-- Witness for C10: a batch headed by an unknown tool name yields nothing. -/
theorem stream_step_unknown_tool_witness :
    stepEvent (Message.ai (MsgContent.str "hi")
      [ToolCall.mk "weather" []]) = none :=
  stream_step_unknown_tool (MsgContent.str "hi") "weather" [] []
    (by decide) (by decide)

/-- Counterexample to C1 as stated: the empty string is string content that
contains none of the keywords, yet classification returns the fallback
record (whose `is_task_complete` is false), not the completed record with
that content, because the code requires the content to be truthy. -/
theorem classify_empty_content_fallback :
    (inputKeywords.any fun keyword =>
      containsSubstr (strLower "") keyword) = false ∧
    get_agent_response [Message.ai (MsgContent.str "") []] = fallbackEvent ∧
    fallbackEvent.is_task_complete = false :=
  ⟨by decide, by decide, rfl⟩

/-- C1 (amended): for every session whose final message is an agent text
message with non-empty string content, classification returns the
input-required record with that content when the lowercased content contains
one of the keywords, and the completed record with that content otherwise. -/
theorem classify_nonempty_string_cases (messages : List Message) (s : String)
    (tcs : List ToolCall)
    (hlast : messages.getLast? = some (Message.ai (MsgContent.str s) tcs))
    (hne : s ≠ "") :
    ((inputKeywords.any fun keyword =>
        containsSubstr (strLower s) keyword) = true →
      get_agent_response messages =
        { is_task_complete := false, require_user_input := true
          content := s }) ∧
    ((inputKeywords.any fun keyword =>
        containsSubstr (strLower s) keyword) = false →
      get_agent_response messages =
        { is_task_complete := true, require_user_input := false
          content := s }) := by
  have ht : contentTruthy (MsgContent.str s) = true := by
    simp [contentTruthy, hne]
  constructor
  · intro hk
    rw [get_agent_response, hlast]
    simp only [ht, if_true, hk, if_pos]
  · intro hk
    rw [get_agent_response, hlast]
    simp only [ht, if_true, hk]
    rw [if_neg (by simp [hk])]

/-- Witness for C1 (amended): a final agent message whose non-empty content
contains no keyword classifies as completed. -/
theorem classify_nonempty_string_cases_witness :
    get_agent_response [Message.ai (MsgContent.str "All done.") []] =
      { is_task_complete := true, require_user_input := false
        content := "All done." } :=
  (classify_nonempty_string_cases
      [Message.ai (MsgContent.str "All done.") []] "All done." []
      rfl (by decide)).2 (by decide)

/-- C4: whenever the session's message list has no last message that is an
agent message with non-empty string content, classification returns the
fixed fallback record. -/
theorem classify_fallback (messages : List Message)
    (h : ∀ (s : String) (tcs : List ToolCall),
      messages.getLast? = some (Message.ai (MsgContent.str s) tcs) → s = "") :
    get_agent_response messages = fallbackEvent := by
  rw [get_agent_response]
  rcases hlast : messages.getLast? with _ | m
  · rfl
  · cases m with
    | user c => rfl
    | ai c tcs =>
      cases c with
      | str s =>
        have hs : s = "" := h s tcs hlast
        subst hs
        rfl
      | blocks l => cases l <;> rfl
    | toolMsg c => rfl

/-- Witness for C4: the empty session classifies as the fallback record. -/
theorem classify_fallback_witness :
    get_agent_response [] = fallbackEvent :=
  classify_fallback [] (fun _s _tcs hc => Option.noConfusion hc)

/-- C7: for every run of `stream`, the yielded sequence is a finite list
whose last element is the terminal record of the Completion Classifier,
every element before the last has both completion flags false, and the
terminal record occurs exactly once in the sequence. -/
theorem stream_terminal_once (trace finalMessages : List Message) :
    (streamEvents trace finalMessages).getLast? =
      some (get_agent_response finalMessages) ∧
    ((streamEvents trace finalMessages).dropLast.all fun e =>
      !e.is_task_complete && !e.require_user_input) = true ∧
    (streamEvents trace finalMessages).count
      (get_agent_response finalMessages) = 1 := by
  have hmem : ∀ e ∈ trace.filterMap stepEvent,
      e.is_task_complete = false ∧ e.require_user_input = false := by
    intro e he
    rcases List.mem_filterMap.mp he with ⟨m, _, hm⟩
    exact stepEvent_flags m e hm
  have hnotmem : get_agent_response finalMessages ∉ trace.filterMap stepEvent := by
    intro hin
    rcases hmem _ hin with ⟨h1, h2⟩
    rcases get_agent_response_shape finalMessages with hs | hs <;>
      rw [hs] at h1 h2 <;> simp at h1 h2
  refine ⟨?_, ?_, ?_⟩
  · exact List.getLast?_concat _
  · rw [streamEvents, List.dropLast_concat, List.all_eq_true]
    intro e he
    rcases hmem e he with ⟨h1, h2⟩
    simp [h1, h2]
  · rw [streamEvents, List.count_append, List.count_eq_zero.mpr hnotmem]
    simp [List.count_cons]

end AgentSpec
